import Mathlib

/-!
Shallow embedding of the four Python lab scripts of
`mslearn-ai-information-extraction`:

* `Labfiles/content-app/create-analyzer.py`
* `Labfiles/content-app/read-card.py`
* `Labfiles/knowledge/python/search-app.py`
* `Labfiles/prebuilt-doc-intelligence/Python/document-analysis.py`

Each script is a straight-line sequence of console prints, HTTP requests,
sleeps and file accesses.  We embed a run of each function as a trace of
`Event`s together with an `Outcome` (normal return, uncaught Python
exception, or still-running-when-fuel-ran-out, which finitizes the
unbounded polling loop).  The environment (HTTP responses delivered by the
remote service, file contents, command-line arguments, interactive input)
is an explicit parameter, so every definition is executable.

Modelling conventions, stated once here:
* JSON values are `JValue`; numbers are carried as their literal strings
  (no floating point is exercised by any claim).
* `dict.get(k)` is `JValue.lookup` (returns `none` when the key is absent;
  `.get` on a non-dict, which would raise `AttributeError` in Python, is
  modelled as `none` -- no claim exercises a non-dict response body there).
* `dict[k]` is `JValue.index`, which raises (`Except.error`) like Python.
* Python `str(...)` is `pyStr`, `repr` is `pyRepr`; `json.dump`/`json.dumps`
  is `jsonDump` (indentation whitespace is not modelled).
* `requests` calls are modelled as total: the environment always delivers
  a response whose `.json()` parses.  Exceptions that the scripts can
  raise from their own code (KeyError, FileNotFoundError, EOFError,
  AttributeError, TypeError) are modelled as `Outcome.exn`.
-/

set_option linter.unusedVariables false

/-- JSON values as returned by `response.json()` / read by `json.load`.
Numeric literals are kept as strings (`num "3.5"`); object key order is the
insertion order, matching Python dicts. -/
inductive JValue where
  | null : JValue
  | bool (b : Bool) : JValue
  | num (literal : String) : JValue
  | str (s : String) : JValue
  | arr (items : List JValue) : JValue
  | obj (fields : List (String × JValue)) : JValue

/-- Python `d.get(k)`: `none` when the key is absent (or the value is not a
dict, see the file header). -/
def JValue.lookup : JValue → String → Option JValue
  | JValue.obj kvs, k => List.lookup k kvs
  | _, _ => none

/-- Python `d[k]`: `KeyError` when the key is absent, `TypeError` when
string-indexing a non-dict. -/
def JValue.index : JValue → String → Except String JValue
  | JValue.obj kvs, k =>
    match List.lookup k kvs with
    | some v => Except.ok v
    | none => Except.error ("KeyError: \x27" ++ k ++ "\x27")
  | _, k => Except.error ("TypeError: \x27" ++ k ++ "\x27 indexing on a non-dict value")

mutual
/-- Python `repr` of a JSON value (strings quoted, containers recursive). -/
def pyRepr : JValue → String
  | JValue.null => "None"
  | JValue.bool true => "True"
  | JValue.bool false => "False"
  | JValue.num s => s
  | JValue.str s => "\x27" ++ s ++ "\x27"
  | JValue.arr xs => "[" ++ pyReprList xs ++ "]"
  | JValue.obj kvs => "\x7b" ++ pyReprObj kvs ++ "\x7d"

/-- Comma-separated `repr`s of list items. -/
def pyReprList : List JValue → String
  | [] => ""
  | [x] => pyRepr x
  | x :: y :: rest => pyRepr x ++ ", " ++ pyReprList (y :: rest)

/-- Comma-separated `repr`s of dict entries. -/
def pyReprObj : List (String × JValue) → String
  | [] => ""
  | [(k, v)] => "\x27" ++ k ++ "\x27: " ++ pyRepr v
  | (k, v) :: p :: rest => "\x27" ++ k ++ "\x27: " ++ pyRepr v ++ ", " ++ pyReprObj (p :: rest)
end

/-- Python `str(...)`: bare for strings, `repr` otherwise (matches `print`
and f-string interpolation). -/
def pyStr : JValue → String
  | JValue.str s => s
  | v => pyRepr v

/-- `str` of a `dict.get` result: `None` when the key was absent. -/
def pyStrOpt : Option JValue → String
  | none => "None"
  | some v => pyStr v

mutual
/-- `json.dumps` / `json.dump` of a JSON value.  String escaping and the
`indent=4` whitespace are not modelled; the rendering is fixed and total. -/
def jsonDump : JValue → String
  | JValue.null => "null"
  | JValue.bool true => "true"
  | JValue.bool false => "false"
  | JValue.num s => s
  | JValue.str s => "\"" ++ s ++ "\""
  | JValue.arr xs => "[" ++ jsonDumpList xs ++ "]"
  | JValue.obj kvs => "\x7b" ++ jsonDumpObj kvs ++ "\x7d"

/-- Comma-separated serializations of list items. -/
def jsonDumpList : List JValue → String
  | [] => ""
  | [x] => jsonDump x
  | x :: y :: rest => jsonDump x ++ ", " ++ jsonDumpList (y :: rest)

/-- Comma-separated serializations of dict entries. -/
def jsonDumpObj : List (String × JValue) → String
  | [] => ""
  | [(k, v)] => "\"" ++ k ++ "\": " ++ jsonDump v
  | (k, v) :: p :: rest => "\"" ++ k ++ "\": " ++ jsonDump v ++ ", " ++ jsonDumpObj (p :: rest)
end

/-- Python truthiness of a `dict.get` result (`if not id_value:`):
`None`, `False`, zero, empty string/list/dict are falsy. -/
def pyFalsy : Option JValue → Bool
  | none => true
  | some JValue.null => true
  | some (JValue.bool b) => !b
  | some (JValue.str s) => s == ""
  | some (JValue.num s) => s == "0" || s == "0.0"
  | some (JValue.arr xs) => xs.isEmpty
  | some (JValue.obj kvs) => kvs.isEmpty

/-- Python `x == "lit"` where `x` came out of JSON: true exactly when `x`
is that string (a non-string value never equals a string). -/
def jEqStr : JValue → String → Bool
  | JValue.str t, s => t == s
  | _, _ => false

/-- `status == "lit"` where `status = response.json().get("status")`. -/
def isStatusEq : Option JValue → String → Bool
  | some v, s => jEqStr v s
  | none, _ => false

/-- HTTP method of a `requests` call. -/
inductive Method where
  | get : Method
  | post : Method
  | put : Method
  | delete : Method
deriving DecidableEq

/-- One observable action of a script run (console, HTTP, clock, files). -/
inductive Event where
  | system (cmd : String) : Event
  | printLine (s : String) : Event
  | prompt (s : String) : Event
  | readFile (name : String) : Event
  | writeFile (name : String) (content : String) : Event
  | httpReq (m : Method) (url : String) (body : Option String) : Event
  | sleep (seconds : Nat) : Event
deriving DecidableEq

/-- How a modelled run ends: normal return, an uncaught Python exception
carrying its message, or the polling loop still running when the fuel ran
out (the model's finitization of nontermination). -/
inductive Outcome where
  | ok : Outcome
  | exn (msg : String) : Outcome
  | timeout : Outcome
deriving DecidableEq

/-- An HTTP response as the scripts observe it: `status_code`, `text`,
the parsed `.json()` body, and the response headers. -/
structure HttpResp where
  code : Nat
  text : String
  body : JValue
  headers : List (String × String)

/-- `result_response.json().get("status")`. -/
def statusOf (r : HttpResp) : Option JValue :=
  JValue.lookup r.body "status"

/-- The `while status == "Running":` polling loop shared verbatim by
`create_analyzer` (create-analyzer.py lines 109-113) and `analyze_card`
(read-card.py lines 131-135): given the response already in hand (`cur`,
obtained by the GET just before the loop) it sleeps 1 second, GETs
`resps i`, re-reads the status and repeats.  `fuel` bounds the number of
iterations the model unfolds; `none` means the loop was still running. -/
def pollUntilDone (url : String) (resps : Nat → HttpResp) :
    Nat → HttpResp → Nat → List Event × Option HttpResp
  | _, cur, 0 =>
    if isStatusEq (statusOf cur) "Running" then ([], none) else ([], some cur)
  | i, cur, fuel + 1 =>
    if isStatusEq (statusOf cur) "Running" then
      let r := pollUntilDone url resps (i + 1) (resps i) fuel
      (Event.sleep 1 :: Event.httpReq Method.get url none :: r.1, r.2)
    else ([], some cur)

/-- API version constant of both content-app scripts. -/
def CU_VERSION : String := "2025-05-01-preview"

/-- The analyzer URL built by `create_analyzer`. -/
def createUrl (endpoint analyzer : String) : String :=
  endpoint ++ "/contentunderstanding/analyzers/" ++ analyzer ++ "?api-version=" ++ CU_VERSION

/-- Environment of one `create_analyzer` run: the responses the service
gives to the DELETE, the PUT, and the n-th status GET (poll `0` is the GET
issued just before the `while` loop). -/
structure CreateEnv where
  deleteResp : HttpResp
  putResp : HttpResp
  polls : Nat → HttpResp

/-- Embedding of `create_analyzer(schema, analyzer, endpoint, key)`
(create-analyzer.py lines 37-127).  The trace records, in program order:
the two status prints, DELETE + its status-code print, `sleep(1)`, PUT +
its status-code print, then either the early error return, the
`Operation-Location` KeyError, or `sleep(1)`, the first status GET, the
polling loop and the final status reporting. -/
def create_analyzer (schema analyzer endpoint key : String) (env : CreateEnv) (fuel : Nat) :
    List Event × Outcome :=
  let url := createUrl endpoint analyzer
  let pre : List Event :=
    [Event.printLine ("Creating " ++ analyzer),
     Event.printLine ("DEBUG: URL = " ++ url),
     Event.httpReq Method.delete url none,
     Event.printLine (toString env.deleteResp.code),
     Event.sleep 1,
     Event.httpReq Method.put url (some schema),
     Event.printLine (toString env.putResp.code)]
  if 400 ≤ env.putResp.code then
    (pre ++ [Event.printLine "ERROR: PUT request failed",
             Event.printLine ("Response: " ++ env.putResp.text)], Outcome.ok)
  else
    match List.lookup "Operation-Location" env.putResp.headers with
    | none => (pre, Outcome.exn "KeyError: \x27Operation-Location\x27")
    | some callback =>
      let pr := pollUntilDone callback env.polls 1 (env.polls 0) fuel
      let t2 := pre ++ Event.sleep 1 :: Event.httpReq Method.get callback none :: pr.1
      match pr.2 with
      | none => (t2, Outcome.timeout)
      | some final =>
        let result := statusOf final
        if isStatusEq result "Succeeded" then
          (t2 ++ [Event.printLine (pyStrOpt result),
                  Event.printLine ("Analyzer \x27" ++ analyzer ++ "\x27 created successfully.")],
           Outcome.ok)
        else
          (t2 ++ [Event.printLine (pyStrOpt result),
                  Event.printLine "Analyzer creation failed.",
                  Event.printLine (pyStr final.body)], Outcome.ok)

/-- A Python `for` loop whose body emits events and can raise: run `step`
on each element in order, stopping (and propagating the outcome) at the
first exception. -/
def runSeq {α : Type} (step : α → List Event × Outcome) : List α → List Event × Outcome
  | [] => ([], Outcome.ok)
  | x :: rest =>
    let r := step x
    match r.2 with
    | Outcome.ok =>
      let r2 := runSeq step rest
      (r.1 ++ r2.1, r2.2)
    | o => (r.1, o)

/-- One type-dispatch branch of the field loop of `analyze_card`
(read-card.py lines 170-183): read `field_data[key]` (KeyError if absent)
and print `f"{field_name}: {value}"`.  The six `elif` branches differ only
in `key`. -/
def valueKeyLine (field_name : String) (field_data : JValue) (key : String) :
    List Event × Outcome :=
  match JValue.index field_data key with
  | Except.error e => ([], Outcome.exn e)
  | Except.ok v => ([Event.printLine (field_name ++ ": " ++ pyStr v)], Outcome.ok)

/-- The body of `for field_name, field_data in fields.items():` in
`analyze_card` (read-card.py lines 164-183): dispatch on
`field_data['type']`; an unknown type prints nothing. -/
def fieldLine (field_name : String) (field_data : JValue) : List Event × Outcome :=
  match JValue.index field_data "type" with
  | Except.error e => ([], Outcome.exn e)
  | Except.ok t =>
    if jEqStr t "string" then valueKeyLine field_name field_data "valueString"
    else if jEqStr t "number" then valueKeyLine field_name field_data "valueNumber"
    else if jEqStr t "integer" then valueKeyLine field_name field_data "valueInteger"
    else if jEqStr t "date" then valueKeyLine field_name field_data "valueDate"
    else if jEqStr t "time" then valueKeyLine field_name field_data "valueTime"
    else if jEqStr t "array" then valueKeyLine field_name field_data "valueArray"
    else ([], Outcome.ok)

/-- The body of `for content in contents:` in `analyze_card` (read-card.py
lines 157-183): skip contents without a `"fields"` key, otherwise iterate
`fields.items()`.  In Python, `"fields" in content` on a non-dict content
(and `.items()` on a non-dict `fields` value) raises; the service returns
dicts there, and the model raises for any non-dict. -/
def contentLoop1 (content : JValue) : List Event × Outcome :=
  match content with
  | JValue.obj kvs =>
    match List.lookup "fields" kvs with
    | some (JValue.obj fs) => runSeq (fun p => fieldLine p.1 p.2) fs
    | some _ => ([], Outcome.exn "AttributeError: \x27fields\x27 value has no attribute \x27items\x27")
    | none => ([], Outcome.ok)
  | _ => ([], Outcome.exn "TypeError: \x27in\x27 requires a dict content here")

/-- The `if status == "Succeeded":` branch of `analyze_card` (read-card.py
lines 138-183), applied to `result_response.json()`: print the banner,
serialize the full body to `results.json`, print the confirmation, then
walk `result_json["result"]["contents"]` printing the extracted fields.
Iterating a non-list `contents` is modelled as a raise (Python would
iterate a dict's keys or a string's characters; the service returns a
list). -/
def handleSuccess (rj : JValue) : List Event × Outcome :=
  let t0 : List Event :=
    [Event.printLine "Analysis succeeded:\n",
     Event.writeFile "results.json" (jsonDump rj),
     Event.printLine "Response saved in results.json\n"]
  match JValue.index rj "result" with
  | Except.error e => (t0, Outcome.exn e)
  | Except.ok res =>
    match JValue.index res "contents" with
    | Except.error e => (t0, Outcome.exn e)
    | Except.ok (JValue.arr cs) =>
      let r := runSeq contentLoop1 cs
      (t0 ++ r.1, r.2)
    | Except.ok _ => (t0, Outcome.exn "TypeError: contents is not a list")

/-- The `:analyze` URL built by `analyze_card`. -/
def analyzeUrl (endpoint analyzer : String) : String :=
  endpoint ++ "/contentunderstanding/analyzers/" ++ analyzer ++ ":analyze?api-version=" ++ CU_VERSION

/-- The `analyzerResults` URL built by `analyze_card`. -/
def resultUrl (endpoint idv : String) : String :=
  endpoint ++ "/contentunderstanding/analyzerResults/" ++ idv ++ "?api-version=" ++ CU_VERSION

/-- Environment of one `analyze_card` run: the image file content (`none`
models a missing file, raising FileNotFoundError), the response to the
POST submission, and the n-th status GET (poll `0` is the GET issued
before the `while` loop). -/
structure AnalyzeEnv where
  fileData : Option String
  postResp : HttpResp
  polls : Nat → HttpResp

/-- Embedding of `analyze_card(image_file, analyzer, endpoint, key)`
(read-card.py lines 37-190): announce the image, read it, POST it, bail
out (printing the error) on HTTP status ≥ 400 or a falsy operation id,
GET the result URL, bail out on HTTP status ≥ 400, poll while the status
is `"Running"`, then either process the succeeded result
(`handleSuccess`) or print the failure details. -/
def analyze_card (image_file analyzer endpoint key : String) (env : AnalyzeEnv) (fuel : Nat) :
    List Event × Outcome :=
  let tail : List Event × Outcome :=
    match env.fileData with
    | none => ([], Outcome.exn ("FileNotFoundError: " ++ image_file))
    | some image_data =>
      let url := analyzeUrl endpoint analyzer
      let t1 : List Event :=
        [Event.readFile image_file,
         Event.printLine "Submitting request...",
         Event.httpReq Method.post url (some image_data),
         Event.printLine (toString env.postResp.code)]
      if 400 ≤ env.postResp.code then
        (t1 ++ [Event.printLine "ERROR: Failed to submit image for analysis",
                Event.printLine ("Response: " ++ env.postResp.text)], Outcome.ok)
      else
        let idv := JValue.lookup env.postResp.body "id"
        if pyFalsy idv then
          (t1 ++ [Event.printLine "ERROR: No operation ID returned from the API"], Outcome.ok)
        else
          let rurl := resultUrl endpoint (pyStrOpt idv)
          let first := env.polls 0
          let t2 := t1 ++
            [Event.printLine "Getting results...",
             Event.sleep 1,
             Event.httpReq Method.get rurl none,
             Event.printLine (toString first.code)]
          if 400 ≤ first.code then
            (t2 ++ [Event.printLine "ERROR: Failed to retrieve analysis results",
                    Event.printLine ("Response: " ++ first.text)], Outcome.ok)
          else
            let pr := pollUntilDone rurl env.polls 1 first fuel
            let t3 := t2 ++ pr.1
            match pr.2 with
            | none => (t3, Outcome.timeout)
            | some final =>
              let status := statusOf final
              if isStatusEq status "Succeeded" then
                let hs := handleSuccess final.body
                (t3 ++ hs.1, hs.2)
              else
                (t3 ++ [Event.printLine ("Analysis failed with status: " ++ pyStrOpt status ++ "\n"),
                        Event.printLine "Error details:",
                        Event.printLine (pyStr final.body)], Outcome.ok)
  (Event.printLine ("Analyzing " ++ image_file) :: tail.1, tail.2)

/-- The `try: ... except Exception as ex: print(ex)` wrapper shared by all
four `main` functions: an exception ends the run normally after printing
its message; a normal return or a still-polling run passes through. -/
def tryExceptPrint (r : List Event × Outcome) : List Event × Outcome :=
  match r.2 with
  | Outcome.exn e => (r.1 ++ [Event.printLine e], Outcome.ok)
  | o => (r.1, o)

/-- The configuration values `main` reads with `os.getenv` (`ENDPOINT`,
`KEY`, `ANALYZER_NAME`); a `None` result is not exercised by any claim,
so the values are plain strings. -/
structure Config where
  endpoint : String
  key : String
  analyzer : String

/-- Environment of create-analyzer.py's `main`: the parsed content of
`biz-card.json` (`Except.error` models a failing `open`/`json.load`), the
configuration, and the HTTP environment of `create_analyzer`. -/
structure CreateMainEnv where
  bizCardJson : Except String JValue
  cfg : Config
  http : CreateEnv

/-- The `try:` body of create-analyzer.py's `main` (lines 16-31): load and
re-serialize the schema, read the configuration, run `create_analyzer`,
print a blank line. -/
def bodyCreateAnalyzer (env : CreateMainEnv) (fuel : Nat) : List Event × Outcome :=
  match env.bizCardJson with
  | Except.error e => ([], Outcome.exn e)
  | Except.ok schema_json =>
    let card_schema := jsonDump schema_json
    let r := create_analyzer card_schema env.cfg.analyzer env.cfg.endpoint env.cfg.key env.http fuel
    match r.2 with
    | Outcome.ok => (Event.readFile "biz-card.json" :: r.1 ++ [Event.printLine "\n"], Outcome.ok)
    | o => (Event.readFile "biz-card.json" :: r.1, o)

/-- create-analyzer.py's `main` (lines 9-34): clear the console, then the
`try` body under the top-level exception printer. -/
def mainCreateAnalyzer (env : CreateMainEnv) (fuel : Nat) : List Event × Outcome :=
  let r := tryExceptPrint (bodyCreateAnalyzer env fuel)
  (Event.system "clear" :: r.1, r.2)

/-- `image_file = 'biz-card-1.png'; if len(sys.argv) > 1: image_file =
sys.argv[1]` (read-card.py lines 17-19).  `argv` is the full Python
`sys.argv`, program name included. -/
def selectImageFile (argv : List String) : String :=
  if h : 1 < argv.length then argv.get ⟨1, h⟩ else "biz-card-1.png"

/-- Environment of read-card.py's `main`: `sys.argv`, the configuration,
and the file/HTTP environment of `analyze_card`. -/
structure ReadMainEnv where
  argv : List String
  cfg : Config
  aenv : AnalyzeEnv

/-- The `try:` body of read-card.py's `main` (lines 14-30): pick the image
file, read the configuration, run `analyze_card`, print a blank line. -/
def bodyReadCard (env : ReadMainEnv) (fuel : Nat) : List Event × Outcome :=
  let image_file := selectImageFile env.argv
  let r := analyze_card image_file env.cfg.analyzer env.cfg.endpoint env.cfg.key env.aenv fuel
  match r.2 with
  | Outcome.ok => (r.1 ++ [Event.printLine "\n"], Outcome.ok)
  | o => (r.1, o)

/-- read-card.py's `main` (lines 9-33): clear the console, then the `try`
body under the top-level exception printer. -/
def mainReadCard (env : ReadMainEnv) (fuel : Nat) : List Event × Outcome :=
  let r := tryExceptPrint (bodyReadCard env fuel)
  (Event.system "clear" :: r.1, r.2)

/-- One search hit as search-app.py reads it: the four fields requested by
the `select` clause of `search_client.search`. -/
structure SearchDoc where
  metadata_storage_name : String
  locations : List String
  people : List String
  keyphrases : List String

/-- A search response: `get_count()` and the iterated documents. -/
structure SearchResults where
  count : Nat
  docs : List SearchDoc

/-- Environment of search-app.py's `main`: the configuration strings, the
interactive input lines (an exhausted list models `input()` raising
EOFError), and the result (or service exception) of each query. -/
structure SearchEnv where
  search_endpoint : String
  query_key : String
  index : String
  inputs : List String
  searchFn : String → Except String SearchResults

/-- The per-document result printing of search-app.py (lines 86-104). -/
def printDoc (d : SearchDoc) : List Event :=
  Event.printLine ("\nDocument: " ++ d.metadata_storage_name)
  :: Event.printLine " - Locations:"
  :: (d.locations.map (fun l => Event.printLine ("   - " ++ l))
  ++ Event.printLine " - People:"
  :: (d.people.map (fun p => Event.printLine ("   - " ++ p))
  ++ Event.printLine " - Key phrases:"
  :: d.keyphrases.map (fun p => Event.printLine ("   - " ++ p))))

/-- The `while True:` query loop of search-app.py (lines 44-104), driven
by the remaining input lines: `quit` breaks, an empty query prompts again,
otherwise clear the console, run the query and print count and documents.
Each iteration consumes one input line, so the recursion is structural. -/
def searchLoop (searchFn : String → Except String SearchResults) :
    List String → List Event × Outcome
  | [] => ([], Outcome.exn "EOFError")
  | q :: rest =>
    let t0 : List Event := [Event.prompt "Enter a query (or type \x27quit\x27 to exit): "]
    if q.toLower == "quit" then (t0, Outcome.ok)
    else if q.length == 0 then
      let r := searchLoop searchFn rest
      (t0 ++ Event.printLine "Please enter a query." :: r.1, r.2)
    else
      match searchFn q with
      | Except.error e => (t0 ++ [Event.system "clear"], Outcome.exn e)
      | Except.ok res =>
        let tr := Event.printLine ("\nSearch returned " ++ toString res.count ++ " documents:")
                  :: res.docs.flatMap printDoc
        let r := searchLoop searchFn rest
        (t0 ++ Event.system "clear" :: tr ++ r.1, r.2)

/-- The `try:` body of search-app.py's `main` (lines 25-104):
configuration loading and client construction emit no events; then the
query loop. -/
def bodySearchApp (env : SearchEnv) : List Event × Outcome :=
  searchLoop env.searchFn env.inputs

/-- search-app.py's `main` (lines 9-110): clear the console, then the
`try` body under the top-level exception printer. -/
def mainSearchApp (env : SearchEnv) : List Event × Outcome :=
  let r := tryExceptPrint (bodySearchApp env)
  (Event.system "clear" :: r.1, r.2)

/-- A `CurrencyValue` of the Form Recognizer SDK (amount kept as its
printed literal). -/
structure CurrencyValue where
  symbol : String
  amount : String

/-- The `.value` of an extracted invoice field: a plain value (printed via
`str`) or a currency value with `.symbol`/`.amount` attributes. -/
inductive InvValue where
  | text (s : String) : InvValue
  | currency (c : CurrencyValue) : InvValue

/-- An extracted invoice field: `.value` and `.confidence` (the confidence
is a float; only its printed form matters, so it is kept as a string). -/
structure InvField where
  value : InvValue
  confidence : String

/-- One analyzed document of `poller.result().documents`, with its
`fields` dict. -/
structure InvoiceDoc where
  fields : List (String × InvField)

/-- Environment of document-analysis.py's `main`: the configuration and
the outcome of `begin_analyze_document_from_url` + `poller.result()`
(client construction, submission and analysis failures are folded into
the `Except.error` case). -/
structure DocEnv where
  endpoint : String
  key : String
  pollerResult : Except String (List InvoiceDoc)

/-- The invoice URL constant of document-analysis.py (line 27). -/
def fileUri : String :=
  "https://github.com/MicrosoftLearning/mslearn-ai-information-extraction/blob/main/Labfiles/prebuilt-doc-intelligence/sample-invoice/sample-invoice.pdf?raw=true"

/-- `str` of a field `.value` (the SDK repr of a `CurrencyValue` is not
load-bearing for any claim; a fixed rendering is used). -/
def invValueStr : InvValue → String
  | InvValue.text s => s
  | InvValue.currency c => "CurrencyValue(symbol=" ++ c.symbol ++ ", amount=" ++ c.amount ++ ")"

/-- The body of `for idx, receipt in enumerate(receipts.documents):` in
document-analysis.py (lines 67-91): print VendorName, CustomerName and
InvoiceTotal when present; `.value.symbol` on a non-currency value raises
AttributeError. -/
def invoiceDocTrace (d : InvoiceDoc) : List Event × Outcome :=
  let t1 : List Event :=
    match List.lookup "VendorName" d.fields with
    | some f => [Event.printLine ("\nVendor Name: " ++ invValueStr f.value ++
                                  ", with confidence " ++ f.confidence ++ ".")]
    | none => []
  let t2 : List Event :=
    match List.lookup "CustomerName" d.fields with
    | some f => [Event.printLine ("Customer Name: \x27" ++ invValueStr f.value ++
                                  "\x27, with confidence " ++ f.confidence ++ ".")]
    | none => []
  match List.lookup "InvoiceTotal" d.fields with
  | some f =>
    match f.value with
    | InvValue.currency c =>
      (t1 ++ t2 ++ [Event.printLine ("Invoice Total: \x27" ++ c.symbol ++ c.amount ++
                                     "\x27, with confidence " ++ f.confidence ++ ".")],
       Outcome.ok)
    | InvValue.text _ =>
      (t1 ++ t2, Outcome.exn "AttributeError: \x27str\x27 object has no attribute \x27symbol\x27")
  | none => (t1 ++ t2, Outcome.ok)

/-- The `try:` body of document-analysis.py's `main` (lines 20-91): read
the configuration, print the two banners, submit the document and wait
for the result, then print the extracted fields per document. -/
def bodyDocAnalysis (env : DocEnv) : List Event × Outcome :=
  let t0 : List Event :=
    [Event.printLine ("\nConnecting to Forms Recognizer at: " ++ env.endpoint),
     Event.printLine ("Analyzing invoice at: " ++ fileUri)]
  match env.pollerResult with
  | Except.error e => (t0, Outcome.exn e)
  | Except.ok docs =>
    let r := runSeq invoiceDocTrace docs
    (t0 ++ r.1, r.2)

/-- document-analysis.py's `main` (lines 15-99): clear the console, the
`try` body under the top-level exception printer, then the unconditional
closing print that sits after the `except` block. -/
def mainDocAnalysis (env : DocEnv) : List Event × Outcome :=
  let r := tryExceptPrint (bodyDocAnalysis env)
  (Event.system "clear" :: r.1 ++ [Event.printLine "\nAnalysis complete.\n"], r.2)

/-- Every event the polling loop emits is the 1-second sleep or the status
GET. -/
theorem pollUntilDone_events (url : String) (resps : Nat → HttpResp) :
    ∀ (fuel i : Nat) (cur : HttpResp) (e : Event),
      e ∈ (pollUntilDone url resps i cur fuel).1 →
      e = Event.sleep 1 ∨ e = Event.httpReq Method.get url none := by
  intro fuel
  induction fuel with
  | zero =>
    intro i cur e he
    rw [pollUntilDone] at he
    split at he <;> simp at he
  | succ n ih =>
    intro i cur e he
    rw [pollUntilDone] at he
    split at he
    · simp only [List.mem_cons] at he
      rcases he with h | h | h
      · exact Or.inl h
      · exact Or.inr h
      · exact ih (i + 1) (resps i) e h
    · simp at he

/-- When the loop returns a response, that response is the one already in
hand or one fetched from the status endpoint. -/
theorem pollUntilDone_final_source (url : String) (resps : Nat → HttpResp) :
    ∀ (fuel i : Nat) (cur final : HttpResp),
      (pollUntilDone url resps i cur fuel).2 = some final →
      final = cur ∨ ∃ n, final = resps n := by
  intro fuel
  induction fuel with
  | zero =>
    intro i cur final h
    rw [pollUntilDone] at h
    split at h
    · simp at h
    · simp at h
      exact Or.inl h.symm
  | succ n ih =>
    intro i cur final h
    rw [pollUntilDone] at h
    split at h
    · rcases ih (i + 1) (resps i) final h with h1 | h1
      · exact Or.inr ⟨i, h1⟩
      · exact Or.inr h1
    · simp at h
      exact Or.inl h.symm

/-- When the loop returns a response, its status is not `"Running"`. -/
theorem pollUntilDone_not_running (url : String) (resps : Nat → HttpResp) :
    ∀ (fuel i : Nat) (cur final : HttpResp),
      (pollUntilDone url resps i cur fuel).2 = some final →
      isStatusEq (statusOf final) "Running" = false := by
  intro fuel
  induction fuel with
  | zero =>
    intro i cur final h
    rw [pollUntilDone] at h
    split at h
    · simp at h
    · simp at h
      rename_i hc
      rw [← h]
      exact Bool.eq_false_iff.mpr hc
  | succ n ih =>
    intro i cur final h
    rw [pollUntilDone] at h
    split at h
    · exact ih (i + 1) (resps i) final h
    · simp at h
      rename_i hc
      rw [← h]
      exact Bool.eq_false_iff.mpr hc

/-- A response whose status is not `"Running"` makes the loop return it at
once, with an empty trace, whatever the fuel. -/
theorem pollUntilDone_stop (url : String) (resps : Nat → HttpResp) (i : Nat) (cur : HttpResp)
    (h : isStatusEq (statusOf cur) "Running" = false) :
    ∀ fuel, pollUntilDone url resps i cur fuel = ([], some cur) := by
  intro fuel
  cases fuel with
  | zero => rw [pollUntilDone, h]; simp
  | succ n => rw [pollUntilDone, h]; simp

/-- If the `n`-th fetched status (counting from the loop's next fetch) is
not `"Running"`, then `n + 1` loop unfoldings reach a returned response. -/
theorem pollUntilDone_terminates_aux (url : String) (resps : Nat → HttpResp) :
    ∀ (n i : Nat) (cur : HttpResp),
      isStatusEq (statusOf (resps (i + n))) "Running" = false →
      ((pollUntilDone url resps i cur (n + 1)).2).isSome := by
  intro n
  induction n with
  | zero =>
    intro i cur h
    rw [pollUntilDone]
    split
    · rw [pollUntilDone]
      rw [Nat.add_zero] at h
      rw [h]
      simp
    · simp
  | succ n ih =>
    intro i cur h
    rw [pollUntilDone]
    split
    · have h1 : isStatusEq (statusOf (resps (i + 1 + n))) "Running" = false := by
        rw [Nat.add_right_comm i 1 n]
        rw [← Nat.add_assoc] at h
        exact h
      exact ih (i + 1) (resps i) h1
    · simp

/-- If every fetched status is `"Running"`, the loop never returns, for
any amount of fuel. -/
theorem pollUntilDone_all_running (url : String) (resps : Nat → HttpResp)
    (hall : ∀ n, isStatusEq (statusOf (resps n)) "Running" = true) :
    ∀ (fuel i : Nat) (cur : HttpResp),
      isStatusEq (statusOf cur) "Running" = true →
      (pollUntilDone url resps i cur fuel).2 = none := by
  intro fuel
  induction fuel with
  | zero =>
    intro i cur hcur
    rw [pollUntilDone, hcur]
    simp
  | succ n ih =>
    intro i cur hcur
    rw [pollUntilDone, hcur]
    simp only [if_true]
    exact ih (i + 1) (resps i) (hall i)

/-- C1 (amended): whenever the polling loop shared by `create_analyzer`
and `analyze_card` exits, the last fetched status is not `"Running"` (the
loop condition is `status == "Running"`, so any other value -- not only
the terminal `"Succeeded"`/`"Failed"` -- ends it); and when every status
the endpoint can deliver is `"Running"`, `"Succeeded"` or `"Failed"`, the
last fetched status at exit is `"Succeeded"` or `"Failed"`. -/
theorem c1_poll_exit_status (url : String) (resps : Nat → HttpResp)
    (i fuel : Nat) (cur final : HttpResp) (t : List Event)
    (h : pollUntilDone url resps i cur fuel = (t, some final)) :
    isStatusEq (statusOf final) "Running" = false ∧
    ((statusOf cur = some (JValue.str "Running") ∨
        statusOf cur = some (JValue.str "Succeeded") ∨
        statusOf cur = some (JValue.str "Failed")) →
     (∀ n : Nat, statusOf (resps n) = some (JValue.str "Running") ∨
        statusOf (resps n) = some (JValue.str "Succeeded") ∨
        statusOf (resps n) = some (JValue.str "Failed")) →
     statusOf final = some (JValue.str "Succeeded") ∨
        statusOf final = some (JValue.str "Failed")) := by
  have h2 : (pollUntilDone url resps i cur fuel).2 = some final := by rw [h]
  have hnr := pollUntilDone_not_running url resps fuel i cur final h2
  refine ⟨hnr, fun hcur hall => ?_⟩
  have hsrc := pollUntilDone_final_source url resps fuel i cur final h2
  have hfin : statusOf final = some (JValue.str "Running") ∨
      statusOf final = some (JValue.str "Succeeded") ∨
      statusOf final = some (JValue.str "Failed") := by
    rcases hsrc with h1 | ⟨n, h1⟩
    · rw [h1]; exact hcur
    · rw [h1]; exact hall n
  rcases hfin with h1 | h1 | h1
  · rw [h1] at hnr
    simp [isStatusEq, jEqStr] at hnr
  · exact Or.inl h1
  · exact Or.inr h1

/-- C1 witness: a service that answers `"Running"` once and then
`"Succeeded"`; the loop exits within the fuel bound and the amended claim
applies with every hypothesis discharged. -/
def respRunningW : HttpResp :=
  { code := 200, text := "", body := JValue.obj [("status", JValue.str "Running")], headers := [] }

/-- A poll response with terminal status `"Succeeded"`. -/
def respSucceededW : HttpResp :=
  { code := 200, text := "", body := JValue.obj [("status", JValue.str "Succeeded")], headers := [] }

/-- Witness for C1's amended theorem at a concrete status sequence. -/
theorem c1_poll_exit_status_witness :
    isStatusEq (statusOf respSucceededW) "Running" = false ∧
    ((statusOf respRunningW = some (JValue.str "Running") ∨
        statusOf respRunningW = some (JValue.str "Succeeded") ∨
        statusOf respRunningW = some (JValue.str "Failed")) →
     (∀ n : Nat, statusOf respSucceededW = some (JValue.str "Running") ∨
        statusOf respSucceededW = some (JValue.str "Succeeded") ∨
        statusOf respSucceededW = some (JValue.str "Failed")) →
     statusOf respSucceededW = some (JValue.str "Succeeded") ∨
        statusOf respSucceededW = some (JValue.str "Failed")) :=
  c1_poll_exit_status "cb" (fun _ => respSucceededW) 1 3 respRunningW respSucceededW
    [Event.sleep 1, Event.httpReq Method.get "cb" none] rfl

/-- A poll response whose status is `"Canceled"`: not `"Running"`, so the
loop exits, yet not a terminal `"Succeeded"`/`"Failed"` either. -/
def respCanceledC1 : HttpResp :=
  { code := 200, text := "", body := JValue.obj [("status", JValue.str "Canceled")], headers := [] }

/-- Environment for running `create_analyzer` against a service whose
status endpoint reports `"Canceled"`. -/
def cexCreateEnvC1 : CreateEnv :=
  { deleteResp := { code := 204, text := "", body := JValue.null, headers := [] },
    putResp := { code := 202, text := "", body := JValue.null,
                 headers := [("Operation-Location", "cb")] },
    polls := fun _ => respCanceledC1 }

/-- C1 counterexample: with the very first fetched status `"Canceled"`,
the loop exits at once (the run of `create_analyzer` completes and prints
`Canceled`), but the last fetched status is neither `"Succeeded"` nor
`"Failed"` -- refuting the claim that at loop exit the last fetched status
is always one of the two. -/
theorem c1_counterexample :
    pollUntilDone "cb" (fun _ => respCanceledC1) 1 respCanceledC1 5 = ([], some respCanceledC1) ∧
    statusOf respCanceledC1 = some (JValue.str "Canceled") ∧
    (statusOf respCanceledC1 ≠ some (JValue.str "Succeeded") ∧
      statusOf respCanceledC1 ≠ some (JValue.str "Failed")) ∧
    (create_analyzer "sch" "an" "ep" "k" cexCreateEnvC1 5).2 = Outcome.ok ∧
    Event.printLine "Canceled" ∈ (create_analyzer "sch" "an" "ep" "k" cexCreateEnvC1 5).1 ∧
    Event.printLine "Succeeded" ∉ (create_analyzer "sch" "an" "ep" "k" cexCreateEnvC1 5).1 ∧
    Event.printLine "Failed" ∉ (create_analyzer "sch" "an" "ep" "k" cexCreateEnvC1 5).1 := by
  refine ⟨rfl, rfl, ⟨?_, ?_⟩, rfl, ?_, ?_, ?_⟩
  · intro h
    simp [respCanceledC1, statusOf, JValue.lookup, List.lookup] at h
  · intro h
    simp [respCanceledC1, statusOf, JValue.lookup, List.lookup] at h
  · decide
  · decide
  · decide

/-- C2: the polling loops of `create_analyzer` and `analyze_card` (both
are `pollUntilDone`) terminate exactly when some fetched status differs
from `"Running"`: a non-`"Running"` response in hand stops the loop
immediately; if some later poll answers non-`"Running"`, some finite fuel
makes the loop return; and if the response in hand and every poll answer
`"Running"`, no amount of fuel makes it return -- there is no iteration
limit or timeout in the code. -/
theorem c2_poll_termination (url : String) (resps : Nat → HttpResp) (i : Nat) (cur : HttpResp) :
    (isStatusEq (statusOf cur) "Running" = false →
      ∀ fuel, pollUntilDone url resps i cur fuel = ([], some cur)) ∧
    ((∃ n, isStatusEq (statusOf (resps (i + n))) "Running" = false) →
      ∃ fuel t r, pollUntilDone url resps i cur fuel = (t, some r)) ∧
    ((isStatusEq (statusOf cur) "Running" = true ∧
        ∀ n, isStatusEq (statusOf (resps n)) "Running" = true) →
      ∀ fuel, (pollUntilDone url resps i cur fuel).2 = none) := by
  refine ⟨fun h => pollUntilDone_stop url resps i cur h, fun h => ?_, fun h fuel => ?_⟩
  · obtain ⟨n, hn⟩ := h
    have hs := pollUntilDone_terminates_aux url resps n i cur hn
    cases hp : pollUntilDone url resps i cur (n + 1) with
    | mk t r2 =>
      rw [hp] at hs
      cases r2 with
      | none => simp at hs
      | some r => exact ⟨n + 1, t, r, hp⟩
  · exact pollUntilDone_all_running url resps h.2 fuel i cur h.1

/-- Witness for C2 at concrete inputs: a service whose second poll answers
`"Succeeded"` (loop terminates) and a service answering `"Running"`
forever (loop never returns, checked at fuel 7). -/
theorem c2_poll_termination_witness :
    (∃ fuel t r,
      pollUntilDone "cb" (fun _ => respSucceededW) 1 respRunningW fuel = (t, some r)) ∧
    (pollUntilDone "cb" (fun _ => respRunningW) 1 respRunningW 7).2 = none :=
  ⟨(c2_poll_termination "cb" (fun _ => respSucceededW) 1 respRunningW).2.1 ⟨0, by decide⟩,
   (c2_poll_termination "cb" (fun _ => respRunningW) 1 respRunningW).2.2 ⟨by decide, fun _ => by decide⟩ 7⟩

/-- Every event a `runSeq` run emits comes from the step applied to some
element of the list. -/
theorem runSeq_events {α : Type} (step : α → List Event × Outcome) :
    ∀ (l : List α) (e : Event), e ∈ (runSeq step l).1 → ∃ x ∈ l, e ∈ (step x).1 := by
  intro l
  induction l with
  | nil => intro e he; simp [runSeq] at he
  | cons x rest ih =>
    intro e he
    simp only [runSeq] at he
    split at he
    · rw [List.mem_append] at he
      rcases he with h | h
      · exact ⟨x, List.mem_cons_self x rest, h⟩
      · obtain ⟨y, hy, hey⟩ := ih e h
        exact ⟨y, List.mem_cons_of_mem x hy, hey⟩
    · exact ⟨x, List.mem_cons_self x rest, he⟩

/-- A type-dispatch branch of the field loop only prints. -/
theorem valueKeyLine_events (field_name : String) (field_data : JValue) (k : String) :
    ∀ e ∈ (valueKeyLine field_name field_data k).1, ∃ s, e = Event.printLine s := by
  intro e he
  rw [valueKeyLine] at he
  split at he
  · simp at he
  · simp at he
    exact ⟨_, he⟩

/-- A field-loop iteration only prints. -/
theorem fieldLine_events (field_name : String) (field_data : JValue) :
    ∀ e ∈ (fieldLine field_name field_data).1, ∃ s, e = Event.printLine s := by
  intro e he
  rw [fieldLine] at he
  split at he
  · simp at he
  · split at he
    · exact valueKeyLine_events _ _ _ e he
    · split at he
      · exact valueKeyLine_events _ _ _ e he
      · split at he
        · exact valueKeyLine_events _ _ _ e he
        · split at he
          · exact valueKeyLine_events _ _ _ e he
          · split at he
            · exact valueKeyLine_events _ _ _ e he
            · split at he
              · exact valueKeyLine_events _ _ _ e he
              · simp at he

/-- A content-loop iteration only prints. -/
theorem contentLoop1_events (c : JValue) :
    ∀ e ∈ (contentLoop1 c).1, ∃ s, e = Event.printLine s := by
  intro e he
  cases c with
  | obj kvs =>
    rw [contentLoop1] at he
    split at he <;> try simp at he
    obtain ⟨p, _, hp⟩ := runSeq_events _ _ e he
    exact fieldLine_events p.1 p.2 e hp
  | null => simp [contentLoop1] at he
  | bool b => simp [contentLoop1] at he
  | num s => simp [contentLoop1] at he
  | str s => simp [contentLoop1] at he
  | arr xs => simp [contentLoop1] at he

/-- The succeeded-branch trace starts with the banner print, the
`results.json` write of the full serialized body and the confirmation
print, and everything after is field prints. -/
theorem handleSuccess_shape (rj : JValue) :
    ∃ rest, (handleSuccess rj).1 =
      Event.printLine "Analysis succeeded:\n"
      :: Event.writeFile "results.json" (jsonDump rj)
      :: Event.printLine "Response saved in results.json\n" :: rest ∧
      ∀ e ∈ rest, ∃ s, e = Event.printLine s := by
  rw [handleSuccess]
  split
  · exact ⟨[], rfl, by simp⟩
  · split
    · exact ⟨[], rfl, by simp⟩
    · rename_i cs hcs
      refine ⟨(runSeq contentLoop1 cs).1, by simp, ?_⟩
      intro e he
      obtain ⟨c, _, hc⟩ := runSeq_events _ _ e he
      exact contentLoop1_events c e hc
    · exact ⟨[], rfl, by simp⟩

/-- Every event of the succeeded branch is a print or the one
`results.json` write. -/
theorem handleSuccess_events (rj : JValue) :
    ∀ e ∈ (handleSuccess rj).1,
      (∃ s, e = Event.printLine s) ∨ e = Event.writeFile "results.json" (jsonDump rj) := by
  intro e he
  obtain ⟨rest, hsh, hrest⟩ := handleSuccess_shape rj
  rw [hsh] at he
  simp only [List.mem_cons] at he
  rcases he with h | h | h | h
  · exact Or.inl ⟨_, h⟩
  · exact Or.inr h
  · exact Or.inl ⟨_, h⟩
  · exact Or.inl (hrest e h)

/-- C3: every `time.sleep` in a `create_analyzer` or `analyze_card` run
waits exactly 1 second -- in particular every inter-poll delay of the two
polling loops is the fixed 1-second interval, with no backoff. -/
theorem c3_fixed_sleep_interval :
    (∀ (schema analyzer endpoint key : String) (env : CreateEnv) (fuel n : Nat),
      Event.sleep n ∈ (create_analyzer schema analyzer endpoint key env fuel).1 → n = 1) ∧
    (∀ (image_file analyzer endpoint key : String) (env : AnalyzeEnv) (fuel n : Nat),
      Event.sleep n ∈ (analyze_card image_file analyzer endpoint key env fuel).1 → n = 1) := by
  constructor
  · intro schema analyzer endpoint key env fuel n he
    simp only [create_analyzer] at he
    split at he
    · simp at he
      exact he
    · split at he
      · simp at he
        exact he
      · rename_i callback hcb
        split at he
        · simp at he
          rcases he with h | h
          · exact h
          · rcases pollUntilDone_events _ _ _ _ _ _ h with h1 | h1
            · injection h1
            · exact absurd h1 (by simp)
        · split at he <;>
          · simp at he
            rcases he with h | h
            · exact h
            · rcases pollUntilDone_events _ _ _ _ _ _ h with h1 | h1
              · injection h1
              · exact absurd h1 (by simp)
  · intro image_file analyzer endpoint key env fuel n he
    simp only [analyze_card] at he
    split at he
    · simp at he
    · split at he
      · simp at he
      · split at he
        · simp at he
        · split at he
          · simp at he
            exact he
          · split at he
            · simp at he
              rcases he with h | h
              · exact h
              · rcases pollUntilDone_events _ _ _ _ _ _ h with h1 | h1
                · injection h1
                · exact absurd h1 (by simp)
            · split at he
              · simp at he
                rcases he with h | h | h
                · exact h
                · rcases pollUntilDone_events _ _ _ _ _ _ h with h1 | h1
                  · injection h1
                  · exact absurd h1 (by simp)
                · rcases handleSuccess_events _ _ h with ⟨s, h1⟩ | h1
                  · exact absurd h1 (by simp)
                  · exact absurd h1 (by simp)
              · simp at he
                rcases he with h | h
                · exact h
                · rcases pollUntilDone_events _ _ _ _ _ _ h with h1 | h1
                  · injection h1
                  · exact absurd h1 (by simp)

/-- Witness environment for C3: a run of `analyze_card` that reaches the
polling loop. -/
def wEnvC3 : AnalyzeEnv :=
  { fileData := some "img",
    postResp := { code := 202, text := "", body := JValue.obj [("id", JValue.str "op1")],
                  headers := [] },
    polls := fun _ => respSucceededW }

/-- Witness for C3: the 1-second sleep event really occurs in a concrete
`analyze_card` run, and the theorem evaluates its duration to 1. -/
theorem c3_fixed_sleep_interval_witness : (1 : Nat) = 1 :=
  c3_fixed_sleep_interval.2 "card.png" "an" "ep" "k" wEnvC3 3 1 (by decide)

/-- C4: in each of the four scripts, when the `try` body of `main` raises,
`main` appends exactly one print of the exception message to the events
the body had already emitted and returns normally (`Outcome.ok`): the
exception never propagates out of `main`, and no retry, cleanup or
re-raise happens -- document-analysis.py additionally runs its
unconditional closing print, which sits after the `except` block. -/
theorem c4_main_catches_and_prints :
    (∀ (env : CreateMainEnv) (fuel : Nat) (t : List Event) (e : String),
      bodyCreateAnalyzer env fuel = (t, Outcome.exn e) →
      mainCreateAnalyzer env fuel =
        (Event.system "clear" :: (t ++ [Event.printLine e]), Outcome.ok)) ∧
    (∀ (env : ReadMainEnv) (fuel : Nat) (t : List Event) (e : String),
      bodyReadCard env fuel = (t, Outcome.exn e) →
      mainReadCard env fuel =
        (Event.system "clear" :: (t ++ [Event.printLine e]), Outcome.ok)) ∧
    (∀ (env : SearchEnv) (t : List Event) (e : String),
      bodySearchApp env = (t, Outcome.exn e) →
      mainSearchApp env =
        (Event.system "clear" :: (t ++ [Event.printLine e]), Outcome.ok)) ∧
    (∀ (env : DocEnv) (t : List Event) (e : String),
      bodyDocAnalysis env = (t, Outcome.exn e) →
      mainDocAnalysis env =
        (Event.system "clear" ::
          (t ++ [Event.printLine e, Event.printLine "\nAnalysis complete.\n"]), Outcome.ok)) := by
  refine ⟨?_, ?_, ?_, ?_⟩
  · intro env fuel t e h
    simp [mainCreateAnalyzer, tryExceptPrint, h]
  · intro env fuel t e h
    simp [mainReadCard, tryExceptPrint, h]
  · intro env t e h
    simp [mainSearchApp, tryExceptPrint, h]
  · intro env t e h
    simp [mainDocAnalysis, tryExceptPrint, h]

/-- A content-free HTTP response used by witness environments. -/
def respNullW : HttpResp := { code := 204, text := "", body := JValue.null, headers := [] }

/-- C4 witness environment for create-analyzer.py: `biz-card.json` is
missing, so `open` raises before any other action. -/
def wC4CreateEnv : CreateMainEnv :=
  { bizCardJson := Except.error "FileNotFoundError: biz-card.json",
    cfg := { endpoint := "ep", key := "k", analyzer := "an" },
    http := { deleteResp := respNullW, putResp := respNullW, polls := fun _ => respSucceededW } }

/-- C4 witness environment for read-card.py: the image file is missing. -/
def wC4ReadEnv : ReadMainEnv :=
  { argv := ["read-card.py"],
    cfg := { endpoint := "ep", key := "k", analyzer := "an" },
    aenv := { fileData := none, postResp := respNullW, polls := fun _ => respSucceededW } }

/-- C4 witness environment for search-app.py: `input()` hits end of input
immediately and raises EOFError. -/
def wC4SearchEnv : SearchEnv :=
  { search_endpoint := "se", query_key := "qk", index := "ix",
    inputs := [], searchFn := fun _ => Except.error "HttpResponseError" }

/-- C4 witness environment for document-analysis.py: the analysis request
raises. -/
def wC4DocEnv : DocEnv :=
  { endpoint := "ep", key := "k", pollerResult := Except.error "ServiceRequestError" }

/-- Witness for C4: in all four scripts, a concrete raising body makes
`main` print the message and return normally. -/
theorem c4_main_catches_and_prints_witness :
    mainCreateAnalyzer wC4CreateEnv 0 =
      (Event.system "clear" :: ([] ++ [Event.printLine "FileNotFoundError: biz-card.json"]),
       Outcome.ok) ∧
    mainReadCard wC4ReadEnv 0 =
      (Event.system "clear" :: ([Event.printLine "Analyzing biz-card-1.png"] ++
        [Event.printLine "FileNotFoundError: biz-card-1.png"]), Outcome.ok) ∧
    mainSearchApp wC4SearchEnv =
      (Event.system "clear" :: ([] ++ [Event.printLine "EOFError"]), Outcome.ok) ∧
    mainDocAnalysis wC4DocEnv =
      (Event.system "clear" ::
        ([Event.printLine "\nConnecting to Forms Recognizer at: ep",
          Event.printLine ("Analyzing invoice at: " ++ fileUri)] ++
         [Event.printLine "ServiceRequestError", Event.printLine "\nAnalysis complete.\n"]),
       Outcome.ok) :=
  ⟨c4_main_catches_and_prints.1 wC4CreateEnv 0 [] "FileNotFoundError: biz-card.json" rfl,
   c4_main_catches_and_prints.2.1 wC4ReadEnv 0 [Event.printLine "Analyzing biz-card-1.png"]
     "FileNotFoundError: biz-card-1.png" rfl,
   c4_main_catches_and_prints.2.2.1 wC4SearchEnv [] "EOFError" rfl,
   c4_main_catches_and_prints.2.2.2 wC4DocEnv
     [Event.printLine "\nConnecting to Forms Recognizer at: ep",
      Event.printLine ("Analyzing invoice at: " ++ fileUri)] "ServiceRequestError" rfl⟩

/-- C5: when the submission request (the PUT of `create_analyzer`, the
POST of `analyze_card`) comes back with HTTP status ≥ 400, the function
prints the error banner and the response text and returns normally at
once: the full trace is exactly the events up to and including the
submission plus those two prints -- no further HTTP request, no retry. -/
theorem c5_submit_error_aborts :
    (∀ (schema analyzer endpoint key : String) (env : CreateEnv) (fuel : Nat),
      400 ≤ env.putResp.code →
      create_analyzer schema analyzer endpoint key env fuel =
        ([Event.printLine ("Creating " ++ analyzer),
          Event.printLine ("DEBUG: URL = " ++ createUrl endpoint analyzer),
          Event.httpReq Method.delete (createUrl endpoint analyzer) none,
          Event.printLine (toString env.deleteResp.code),
          Event.sleep 1,
          Event.httpReq Method.put (createUrl endpoint analyzer) (some schema),
          Event.printLine (toString env.putResp.code),
          Event.printLine "ERROR: PUT request failed",
          Event.printLine ("Response: " ++ env.putResp.text)], Outcome.ok)) ∧
    (∀ (image_file analyzer endpoint key : String) (env : AnalyzeEnv) (fuel : Nat) (d : String),
      env.fileData = some d → 400 ≤ env.postResp.code →
      analyze_card image_file analyzer endpoint key env fuel =
        ([Event.printLine ("Analyzing " ++ image_file),
          Event.readFile image_file,
          Event.printLine "Submitting request...",
          Event.httpReq Method.post (analyzeUrl endpoint analyzer) (some d),
          Event.printLine (toString env.postResp.code),
          Event.printLine "ERROR: Failed to submit image for analysis",
          Event.printLine ("Response: " ++ env.postResp.text)], Outcome.ok)) := by
  constructor
  · intro schema analyzer endpoint key env fuel hcode
    simp [create_analyzer, hcode]
  · intro image_file analyzer endpoint key env fuel d hfile hcode
    simp [analyze_card, hfile, hcode]

/-- C5 witness environment for `create_analyzer`: the PUT is rejected
with 401. -/
def wC5CreateEnv : CreateEnv :=
  { deleteResp := respNullW,
    putResp := { code := 401, text := "unauthorized", body := JValue.null, headers := [] },
    polls := fun _ => respSucceededW }

/-- C5 witness environment for `analyze_card`: the POST is rejected with
404. -/
def wC5AnalyzeEnv : AnalyzeEnv :=
  { fileData := some "IMG",
    postResp := { code := 404, text := "notfound", body := JValue.null, headers := [] },
    polls := fun _ => respSucceededW }

/-- Witness for C5 at concrete rejected submissions. -/
theorem c5_submit_error_aborts_witness :
    create_analyzer "sch" "an" "ep" "k" wC5CreateEnv 3 =
      ([Event.printLine ("Creating " ++ "an"),
        Event.printLine ("DEBUG: URL = " ++ createUrl "ep" "an"),
        Event.httpReq Method.delete (createUrl "ep" "an") none,
        Event.printLine (toString wC5CreateEnv.deleteResp.code),
        Event.sleep 1,
        Event.httpReq Method.put (createUrl "ep" "an") (some "sch"),
        Event.printLine (toString wC5CreateEnv.putResp.code),
        Event.printLine "ERROR: PUT request failed",
        Event.printLine ("Response: " ++ wC5CreateEnv.putResp.text)], Outcome.ok) ∧
    analyze_card "card.png" "an" "ep" "k" wC5AnalyzeEnv 3 =
      ([Event.printLine ("Analyzing " ++ "card.png"),
        Event.readFile "card.png",
        Event.printLine "Submitting request...",
        Event.httpReq Method.post (analyzeUrl "ep" "an") (some "IMG"),
        Event.printLine (toString wC5AnalyzeEnv.postResp.code),
        Event.printLine "ERROR: Failed to submit image for analysis",
        Event.printLine ("Response: " ++ wC5AnalyzeEnv.postResp.text)], Outcome.ok) :=
  ⟨c5_submit_error_aborts.1 "sch" "an" "ep" "k" wC5CreateEnv 3 (by decide),
   c5_submit_error_aborts.2 "card.png" "an" "ep" "k" wC5AnalyzeEnv 3 "IMG" rfl (by decide)⟩

/-- C8: on every call and in every environment -- whether or not an
analyzer of that name exists, whatever the DELETE answers -- the
`create_analyzer` trace begins with the two status prints, then the HTTP
DELETE of the analyzer URL, and only later (after the status-code print
and the 1-second sleep) the HTTP PUT that creates the analyzer. -/
theorem c8_delete_before_put (schema analyzer endpoint key : String) (env : CreateEnv)
    (fuel : Nat) :
    ∃ rest, (create_analyzer schema analyzer endpoint key env fuel).1 =
      Event.printLine ("Creating " ++ analyzer)
      :: Event.printLine ("DEBUG: URL = " ++ createUrl endpoint analyzer)
      :: Event.httpReq Method.delete (createUrl endpoint analyzer) none
      :: Event.printLine (toString env.deleteResp.code)
      :: Event.sleep 1
      :: Event.httpReq Method.put (createUrl endpoint analyzer) (some schema)
      :: Event.printLine (toString env.putResp.code)
      :: rest := by
  simp only [create_analyzer]
  split
  · exact ⟨_, rfl⟩
  · split
    · exact ⟨_, rfl⟩
    · split
      · exact ⟨_, rfl⟩
      · split
        · exact ⟨_, rfl⟩
        · exact ⟨_, rfl⟩

/-- Head of every `analyze_card` trace: the `Analyzing <file>` print. -/
theorem analyze_card_head (image_file analyzer endpoint key : String) (env : AnalyzeEnv)
    (fuel : Nat) :
    ∃ t, (analyze_card image_file analyzer endpoint key env fuel).1 =
      Event.printLine ("Analyzing " ++ image_file) :: t := by
  simp only [analyze_card]
  exact ⟨_, rfl⟩

/-- C9: read-card.py's `main` analyzes `biz-card-1.png` when no
command-line argument is supplied and the first argument otherwise
(`argv` is the full `sys.argv`, program name first); the chosen name is
the one `analyze_card` announces at the head of its trace. -/
theorem c9_image_file_selection :
    (∀ prog : String, selectImageFile [prog] = "biz-card-1.png") ∧
    (∀ (prog a : String) (rest : List String), selectImageFile (prog :: a :: rest) = a) ∧
    (∀ (env : ReadMainEnv) (fuel : Nat), ∃ t,
      (bodyReadCard env fuel).1 =
        Event.printLine ("Analyzing " ++ selectImageFile env.argv) :: t) := by
  refine ⟨?_, ?_, ?_⟩
  · intro prog
    simp [selectImageFile]
  · intro prog a rest
    simp [selectImageFile]
  · intro env fuel
    obtain ⟨t0, ht⟩ := analyze_card_head (selectImageFile env.argv) env.cfg.analyzer
      env.cfg.endpoint env.cfg.key env.aenv fuel
    simp only [bodyReadCard]
    split
    · exact ⟨t0 ++ [Event.printLine "\n"], by rw [ht]; simp⟩
    all_goals exact ⟨t0, ht⟩

/-- The type-to-value-key table stated by the specification claim: each
recognized `type` string names the response key holding the field's
value.  (The code expresses this as the if/elif chain of `fieldLine`;
this table is the claim's phrasing, to be compared against it.) -/
def typeValueKey (t : String) : Option String :=
  if t = "string" then some "valueString"
  else if t = "number" then some "valueNumber"
  else if t = "integer" then some "valueInteger"
  else if t = "date" then some "valueDate"
  else if t = "time" then some "valueTime"
  else if t = "array" then some "valueArray"
  else none

/-- A field whose `type` is recognized and whose type-specific value key
is present prints exactly the `name: value` line. -/
theorem fieldLine_eq (field_name : String) (field_data : JValue) (typ key : String) (v : JValue)
    (ht : JValue.index field_data "type" = Except.ok (JValue.str typ))
    (hk : typeValueKey typ = some key)
    (hv : JValue.index field_data key = Except.ok v) :
    fieldLine field_name field_data =
      ([Event.printLine (field_name ++ ": " ++ pyStr v)], Outcome.ok) := by
  by_cases h1 : typ = "string"
  · subst h1
    simp [typeValueKey] at hk
    subst hk
    rw [fieldLine, ht]
    simp [jEqStr, valueKeyLine, hv]
  · by_cases h2 : typ = "number"
    · subst h2
      simp [typeValueKey] at hk
      subst hk
      rw [fieldLine, ht]
      simp [jEqStr, valueKeyLine, hv]
    · by_cases h3 : typ = "integer"
      · subst h3
        simp [typeValueKey] at hk
        subst hk
        rw [fieldLine, ht]
        simp [jEqStr, valueKeyLine, hv]
      · by_cases h4 : typ = "date"
        · subst h4
          simp [typeValueKey] at hk
          subst hk
          rw [fieldLine, ht]
          simp [jEqStr, valueKeyLine, hv]
        · by_cases h5 : typ = "time"
          · subst h5
            simp [typeValueKey] at hk
            subst hk
            rw [fieldLine, ht]
            simp [jEqStr, valueKeyLine, hv]
          · by_cases h6 : typ = "array"
            · subst h6
              simp [typeValueKey] at hk
              subst hk
              rw [fieldLine, ht]
              simp [jEqStr, valueKeyLine, hv]
            · simp [typeValueKey, h1, h2, h3, h4, h5, h6] at hk

/-- Events of one iteration stay in the `runSeq` trace when every
iteration of the loop returns normally. -/
theorem runSeq_mem {α : Type} (step : α → List Event × Outcome) :
    ∀ (l : List α) (x : α), x ∈ l → (∀ y ∈ l, (step y).2 = Outcome.ok) →
      ∀ e ∈ (step x).1, e ∈ (runSeq step l).1 := by
  intro l
  induction l with
  | nil => intro x hx; simp at hx
  | cons z rest ih =>
    intro x hx hall e he
    simp only [runSeq, hall z (List.mem_cons_self z rest)]
    rcases List.mem_cons.mp hx with h | h
    · subst h
      exact List.mem_append_left _ he
    · exact List.mem_append_right _
        (ih x h (fun y hy => hall y (List.mem_cons_of_mem z hy)) e he)

/-- A `runSeq` run that returns normally had every iteration return
normally. -/
theorem runSeq_ok_each {α : Type} (step : α → List Event × Outcome) :
    ∀ (l : List α), (runSeq step l).2 = Outcome.ok → ∀ x ∈ l, (step x).2 = Outcome.ok := by
  intro l
  induction l with
  | nil => intro _ x hx; simp at hx
  | cons z rest ih =>
    intro h x hx
    rw [runSeq] at h
    split at h
    · rename_i hz
      rcases List.mem_cons.mp hx with h1 | h1
      · subst h1; exact hz
      · exact ih h x h1
    all_goals simp_all

/-- C6: in a succeeded analysis result processed by `analyze_card` (the
`handleSuccess` branch), for every content item carrying a `"fields"`
dict and every field in it whose `type` is `"string"`, `"number"`,
`"integer"`, `"date"`, `"time"` or `"array"` and whose type-specific
value key (`valueString`, `valueNumber`, `valueInteger`, `valueDate`,
`valueTime`, `valueArray`) is present, the line `<field_name>: <value>`
is printed; the hypothesis that every content iteration returns normally
reflects the loop running to completion. -/
theorem c6_prints_typed_fields (rj res : JValue) (cs : List JValue)
    (content : JValue) (kvs fs : List (String × JValue))
    (field_name : String) (field_data : JValue) (typ key : String) (v : JValue)
    (hres : JValue.index rj "result" = Except.ok res)
    (hcs : JValue.index res "contents" = Except.ok (JValue.arr cs))
    (hmem : content ∈ cs)
    (hobj : content = JValue.obj kvs)
    (hfs : List.lookup "fields" kvs = some (JValue.obj fs))
    (hall : ∀ c ∈ cs, (contentLoop1 c).2 = Outcome.ok)
    (hfield : (field_name, field_data) ∈ fs)
    (ht : JValue.index field_data "type" = Except.ok (JValue.str typ))
    (hk : typeValueKey typ = some key)
    (hv : JValue.index field_data key = Except.ok v) :
    Event.printLine (field_name ++ ": " ++ pyStr v) ∈ (handleSuccess rj).1 := by
  have hline := fieldLine_eq field_name field_data typ key v ht hk hv
  have hcontent : contentLoop1 content = runSeq (fun p => fieldLine p.1 p.2) fs := by
    rw [hobj, contentLoop1, hfs]
  have hfok : ∀ p ∈ fs, (fieldLine p.1 p.2).2 = Outcome.ok := by
    have hok := hall content hmem
    rw [hcontent] at hok
    exact fun p hp => runSeq_ok_each (fun p => fieldLine p.1 p.2) fs hok p hp
  have hin1 : Event.printLine (field_name ++ ": " ++ pyStr v) ∈
      (contentLoop1 content).1 := by
    rw [hcontent]
    refine runSeq_mem (fun p => fieldLine p.1 p.2) fs (field_name, field_data) hfield hfok _ ?_
    show Event.printLine (field_name ++ ": " ++ pyStr v) ∈ (fieldLine field_name field_data).1
    rw [hline]
    exact List.mem_singleton.mpr rfl
  have hin2 : Event.printLine (field_name ++ ": " ++ pyStr v) ∈
      (runSeq contentLoop1 cs).1 :=
    runSeq_mem contentLoop1 cs content hmem hall _ hin1
  simp only [handleSuccess, hres, hcs]
  exact List.mem_append_right _ hin2

/-- C6 witness: one content with one string-typed field. -/
def wC6FieldData : JValue :=
  JValue.obj [("type", JValue.str "string"), ("valueString", JValue.str "John Doe")]

/-- C6 witness: the content item holding the field dict. -/
def wC6Content : JValue :=
  JValue.obj [("fields", JValue.obj [("Name", wC6FieldData)])]

/-- C6 witness: the full succeeded response body. -/
def wC6Rj : JValue :=
  JValue.obj [("status", JValue.str "Succeeded"),
              ("result", JValue.obj [("contents", JValue.arr [wC6Content])])]

/-- Witness for C6 at a concrete succeeded result: the `Name: John Doe`
line is printed. -/
theorem c6_prints_typed_fields_witness :
    Event.printLine ("Name" ++ ": " ++ pyStr (JValue.str "John Doe")) ∈
      (handleSuccess wC6Rj).1 :=
  c6_prints_typed_fields wC6Rj
    (JValue.obj [("contents", JValue.arr [wC6Content])]) [wC6Content]
    wC6Content [("fields", JValue.obj [("Name", wC6FieldData)])] [("Name", wC6FieldData)]
    "Name" wC6FieldData "string" "valueString" (JValue.str "John Doe")
    rfl rfl (List.mem_singleton.mpr rfl) rfl rfl
    (fun c hc => by rw [List.mem_singleton.mp hc]; rfl)
    (List.mem_singleton.mpr rfl) rfl rfl rfl

/-- C7: (a) on the `"Succeeded"` branch the full JSON body is serialized
to `results.json` right after the banner print and before every field
print (everything after the first three events is a print); (b) in any
`analyze_card` run, a file write can only be the `results.json` dump of a
response body whose status is `"Succeeded"` -- on any other final status
no file is written. -/
theorem c7_results_file_on_success :
    (∀ rj : JValue, ∃ rest, (handleSuccess rj).1 =
        Event.printLine "Analysis succeeded:\n"
        :: Event.writeFile "results.json" (jsonDump rj)
        :: Event.printLine "Response saved in results.json\n" :: rest ∧
        ∀ e ∈ rest, ∃ s, e = Event.printLine s) ∧
    (∀ (image_file analyzer endpoint key : String) (env : AnalyzeEnv) (fuel : Nat)
        (nm c : String),
      Event.writeFile nm c ∈ (analyze_card image_file analyzer endpoint key env fuel).1 →
      ∃ b, isStatusEq (JValue.lookup b "status") "Succeeded" = true ∧
        nm = "results.json" ∧ c = jsonDump b) := by
  constructor
  · exact fun rj => handleSuccess_shape rj
  · intro image_file analyzer endpoint key env fuel nm c hw
    simp only [analyze_card] at hw
    split at hw
    · simp at hw
    · split at hw
      · simp at hw
      · split at hw
        · simp at hw
        · split at hw
          · simp at hw
          · split at hw
            · simp at hw
              rcases pollUntilDone_events _ _ _ _ _ _ hw with h | h <;> simp at h
            · split at hw
              · rename_i final hfin hsucc
                simp at hw
                rcases hw with h | h
                · rcases pollUntilDone_events _ _ _ _ _ _ h with h1 | h1 <;> simp at h1
                · rcases handleSuccess_events _ _ h with ⟨s, h1⟩ | h1
                  · simp at h1
                  · refine ⟨final.body, hsucc, ?_, ?_⟩
                    · injection h1 with h2 h3
                    · injection h1 with h2 h3
              · simp at hw
                rcases pollUntilDone_events _ _ _ _ _ _ hw with h | h <;> simp at h

/-- C7 witness: a run that reaches the succeeded branch immediately. -/
def respSuccC7 : HttpResp :=
  { code := 200, text := "",
    body := JValue.obj [("status", JValue.str "Succeeded"),
                        ("result", JValue.obj [("contents", JValue.arr [])])],
    headers := [] }

/-- C7 witness environment: POST accepted, first poll already succeeded. -/
def wC7AnalyzeEnv : AnalyzeEnv :=
  { fileData := some "IMG",
    postResp := { code := 202, text := "",
                  body := JValue.obj [("id", JValue.str "op1")], headers := [] },
    polls := fun _ => respSuccC7 }

/-- Witness for C7: the succeeded-branch shape at a concrete body, and
the only-on-success direction at a concrete run whose trace does contain
the `results.json` write. -/
theorem c7_results_file_on_success_witness :
    (∃ rest, (handleSuccess JValue.null).1 =
        Event.printLine "Analysis succeeded:\n"
        :: Event.writeFile "results.json" (jsonDump JValue.null)
        :: Event.printLine "Response saved in results.json\n" :: rest ∧
        ∀ e ∈ rest, ∃ s, e = Event.printLine s) ∧
    (∃ b, isStatusEq (JValue.lookup b "status") "Succeeded" = true ∧
      "results.json" = "results.json" ∧ jsonDump respSuccC7.body = jsonDump b) :=
  ⟨c7_results_file_on_success.1 JValue.null,
   c7_results_file_on_success.2 "card.png" "an" "ep" "k" wC7AnalyzeEnv 2
     "results.json" (jsonDump respSuccC7.body) (by decide)⟩
